import Mathlib

set_option autoImplicit false

/-!
Shallow embedding of the fififish recommendation Telegram bot
(src/main.py together with src/config.py).

Modelling choices, kept uniform throughout:
* times are integer seconds (datetime values and timedeltas become Int;
  a timedelta of m minutes is m * 60 seconds);
* a Python dict with int keys is an insertion-ordered association list,
  with assignment, deletion and membership translated operation by
  operation (PyDict below);
* the telethon client is an external collaborator: everything the
  handlers send (respond, answer, edit, notify, relay, forward) is
  collected as an explicit output list, and the success of external
  calls (relay to the channel, reachability of an admin) is passed in
  as a parameter;
* the clock, read in the source via datetime.now, is passed explicitly.
-/

/-- Media attached to a telethon message as inspected by is_image_file:
a native photo (MessageMediaPhoto), a document (MessageMediaDocument)
carrying a declared MIME type, or any other media kind. -/
inductive Media where
  | photo
  | document (mime_type : String)
  | other_media
  deriving DecidableEq

/-- The slice of a telethon Message that the core logic inspects. -/
structure Message where
  media : Option Media
  deriving DecidableEq

/-- main.py line 32: the fixed MIME allowlist. -/
def ALLOWED_MIME_TYPES : List String :=
  ["image/jpeg", "image/png", "image/gif", "image/webp"]

/-- main.py is_image_file (lines 39-48): native photo, or document whose
declared MIME type is in the allowlist; anything else is rejected. -/
def is_image_file (message : Message) : Bool :=
  match message.media with
  | some Media.photo => true
  | some (Media.document mime_type) => ALLOWED_MIME_TYPES.contains mime_type
  | _ => false

/-- A Python dict with int keys: insertion-ordered association list. -/
abbrev PyDict (α : Type) : Type := List (Nat × α)

/-- Python d[k] read / `k in d` membership source of truth. -/
def dget {α : Type} : PyDict α → Nat → Option α
  | [], _ => none
  | (k, v) :: rest, key => if k = key then some v else dget rest key

/-- Python assignment d[k] = v: overwrite in place if the key exists,
otherwise append (dicts preserve insertion order). -/
def dset {α : Type} : PyDict α → Nat → α → PyDict α
  | [], key, v => [(key, v)]
  | (k, w) :: rest, key, v =>
    if k = key then (key, v) :: rest else (k, w) :: dset rest key v

/-- Python `del d[k]`. -/
def ddel {α : Type} : PyDict α → Nat → PyDict α
  | [], _ => []
  | (k, v) :: rest, key =>
    if k = key then ddel rest key else (k, v) :: ddel rest key

/-- config.py: POST_COOLDOWN_MINUTES defaults to 30. -/
def POST_COOLDOWN_MINUTES_default : Int := 30

/-- main.py can_user_post (lines 126-138), with the clock passed
explicitly (the source reads datetime.now inside). Returns the pair
(can_post, remaining seconds). -/
def can_user_post (user_cooldowns : PyDict Int) (user_id : Nat) (now : Int) :
    Bool × Option Int :=
  match dget user_cooldowns user_id with
  | none => (true, none)
  | some cooldown_end =>
    if now ≥ cooldown_end then (true, none)
    else (false, some (cooldown_end - now))

/-- main.py set_user_cooldown (lines 140-142): the entry becomes
now + POST_COOLDOWN_MINUTES minutes, overwriting any prior value. -/
def set_user_cooldown (user_cooldowns : PyDict Int) (user_id : Nat)
    (now : Int) (cooldown_minutes : Int) : PyDict Int :=
  dset user_cooldowns user_id (now + cooldown_minutes * 60)

/-- The minutes figure of the cooldown message (main.py line 187):
int(remaining.total_seconds() / 60), Python int() truncating toward
zero. -/
def shown_minutes (remaining : Int) : Int := Int.tdiv remaining 60

/-- A pending post as stored in pending_posts (main.py lines 195-199). -/
structure Submission where
  user_id : Nat
  message : Message
  timestamp : Int
  deriving DecidableEq

/-- main.py lines 194-195: post_id = len(pending_posts);
pending_posts[post_id] = record. Returns the assigned id and the new
registry. -/
def insert_post (pending_posts : PyDict Submission) (s : Submission) :
    Nat × PyDict Submission :=
  (pending_posts.length, dset pending_posts pending_posts.length s)

/-- The registry removal performed by the callbacks: membership check,
read, delete (main.py lines 239, 243, 249 and 271, 275, 277). -/
def remove_post (pending_posts : PyDict Submission) (post_id : Nat) :
    Option Submission × PyDict Submission :=
  match dget pending_posts post_id with
  | none => (none, pending_posts)
  | some post => (some post, ddel pending_posts post_id)

/-- An interleaved sequence of registry operations. -/
inductive RegOp where
  | ins (s : Submission)
  | rem (post_id : Nat)

/-- Run a sequence of registry operations, collecting the ids the
insert operations assign, in order. -/
def run_reg_ops : PyDict Submission → List RegOp → PyDict Submission × List Nat
  | d, [] => (d, [])
  | d, RegOp.ins s :: rest =>
    let r := insert_post d s
    let t := run_reg_ops r.2 rest
    (t.1, r.1 :: t.2)
  | d, RegOp.rem post_id :: rest => run_reg_ops (remove_post d post_id).2 rest

/-- Run consecutive inserts with no intervening removal, collecting the
assigned ids in order. -/
def insert_all : PyDict Submission → List Submission → PyDict Submission × List Nat
  | d, [] => (d, [])
  | d, s :: rest =>
    let r := insert_post d s
    let t := insert_all r.2 rest
    (t.1, r.1 :: t.2)

/-- The three process-wide mutable maps of main.py lines 27-29.
A cached user entity is modelled by the user id it resolves to. -/
structure BotState where
  pending_posts : PyDict Submission
  user_entities : PyDict Nat
  user_cooldowns : PyDict Int
  deriving DecidableEq

/-- Everything a handler sends through the telethon client, in order. -/
inductive Response where
  | respond (text : String)
  | answer (text : String) (alert : Bool)
  | edit (text : String)
  | notify (user_id : Nat) (text : String)
  | relay (message : Message)
  | admin_notice (admin_id : Nat) (text : String)
  | forward_original (admin_id : Nat)
  deriving DecidableEq

/-- main.py start_handler (lines 144-149). -/
def start_handler (st : BotState) : BotState × List Response :=
  (st, [Response.respond
    "👋 Welcome! Send me an image and I\x27ll forward it to the admins for approval."])

/-- main.py help_handler (lines 151-169). -/
def help_handler (ADMIN_IDS : List Nat) (st : BotState) (sender_id : Nat) :
    BotState × List Response :=
  let base := "🤖 Bot Commands:\n\n/start - Start the bot\n/help - Show this help message\n"
  if ADMIN_IDS.contains sender_id then
    (st, [Response.respond
      (base ++ "/approve <post_id> - Approve a post\n/reject <post_id> - Reject a post")])
  else
    (st, [Response.respond (base ++ "\nSimply send an image to submit it for approval!")])

/-- main.py media_handler (lines 171-228). sender_is_user models
isinstance(event.sender, User); admin_reachable models whether
get_user_entity succeeds and the two sends to that admin go through
(on failure the source only logs). In the cooldown branch the source
always has remaining set, so the Option.getD default is unreachable. -/
def media_handler (ADMIN_IDS : List Nat) (cooldown_minutes : Int)
    (admin_reachable : Nat → Bool) (st : BotState) (sender_id : Nat)
    (sender_is_user : Bool) (message : Message) (now : Int) :
    BotState × List Response :=
  if !sender_is_user then (st, [])
  else if !is_image_file message then
    (st, [Response.respond "❌ Please send only image files (JPEG, PNG, GIF, or WebP)."])
  else
    match can_user_post st.user_cooldowns sender_id now with
    | (false, remaining) =>
      (st, [Response.respond
        ("⏳ Please wait " ++ toString (shown_minutes (remaining.getD 0))
          ++ " minutes before submitting another post.")])
    | (true, _) =>
      let st1 : BotState := { st with user_entities := dset st.user_entities sender_id sender_id }
      let post_id := st1.pending_posts.length
      let record : Submission := { user_id := sender_id, message := message, timestamp := now }
      let st2 : BotState := { st1 with pending_posts := dset st1.pending_posts post_id record }
      let st3 : BotState :=
        { st2 with user_cooldowns := set_user_cooldown st2.user_cooldowns sender_id now cooldown_minutes }
      (st3,
        Response.respond "✅ Your post has been received and is pending approval by an admin."
          :: ADMIN_IDS.foldr (fun admin_id acc =>
              if admin_reachable admin_id then
                Response.admin_notice admin_id
                    ("New post pending approval (ID: " ++ toString post_id
                      ++ ")\nFrom user: " ++ toString sender_id)
                  :: Response.forward_original admin_id :: acc
              else acc) [])

/-- main.py approve_callback (lines 230-260). relay_ok models the result
of send_to_channel; the callback pattern has already extracted post_id.
Deletion from the registry happens only after a successful relay. -/
def approve_callback (ADMIN_IDS : List Nat) (relay_ok : Bool) (st : BotState)
    (sender_id : Nat) (post_id : Nat) : BotState × List Response :=
  if !ADMIN_IDS.contains sender_id then
    (st, [Response.answer "❌ This action is only available to admins." true])
  else
    match dget st.pending_posts post_id with
    | none => (st, [Response.answer "❌ Invalid post ID!" true])
    | some post =>
      if !relay_ok then
        (st, [Response.answer "❌ Failed to send to target channel!" true])
      else
        ({ st with pending_posts := ddel st.pending_posts post_id },
         [Response.relay post.message,
          Response.notify post.user_id "✅ Your post has been approved and published!",
          Response.edit ("✅ Post " ++ toString post_id ++ " has been approved and published!"),
          Response.answer "Post approved!" false])

/-- main.py reject_callback (lines 262-288): check-and-delete, then
notify the submitter; no relay is attempted. -/
def reject_callback (ADMIN_IDS : List Nat) (st : BotState)
    (sender_id : Nat) (post_id : Nat) : BotState × List Response :=
  if !ADMIN_IDS.contains sender_id then
    (st, [Response.answer "❌ This action is only available to admins." true])
  else
    match remove_post st.pending_posts post_id with
    | (none, _) => (st, [Response.answer "❌ Invalid post ID!" true])
    | (some post, remaining_posts) =>
      ({ st with pending_posts := remaining_posts },
       [Response.notify post.user_id "❌ Your post has been rejected.",
        Response.edit ("❌ Post " ++ toString post_id ++ " has been rejected."),
        Response.answer "Post rejected!" false])

/-- main.py setup_commands (lines 50-63): the command menu registered
with the platform; registration alone attaches no handler. -/
def setup_commands_list : List (String × String) :=
  [("start", "Start the bot and get instructions"),
   ("help", "Show help message"),
   ("approve", "Approve a post (admin only)"),
   ("reject", "Reject a post (admin only)")]

/-- Does the first character list start the second? This is re.match
with a literal pattern, as telethon applies NewMessage patterns. -/
def list_starts : List Char → List Char → Bool
  | [], _ => true
  | _ :: _, [] => false
  | a :: as, b :: bs => a == b && list_starts as bs

/-- re.match of a literal pattern against a message text. -/
def text_matches (pat text : String) : Bool :=
  list_starts pat.data text.data

/-- Strip a literal opening run of characters, or fail. -/
def strip_run : List Char → List Char → Option (List Char)
  | [], rest => some rest
  | _ :: _, [] => none
  | a :: as, b :: bs => if a == b then strip_run as bs else none

/-- A nonempty, all-digits character list read as a number:
the (\d+)$ group of the callback patterns. -/
def parse_digits (cs : List Char) : Option Nat :=
  if cs ≠ [] ∧ cs.all Char.isDigit then
    some (cs.foldl (fun n c => n * 10 + (c.toNat - 48)) 0)
  else none

/-- The CallbackQuery patterns of main.py lines 230 and 262:
data must be the tag followed by one or more digits, nothing after. -/
def parse_callback_data (tag data : String) : Option Nat :=
  match strip_run tag.data data.data with
  | some rest => parse_digits rest
  | none => none

/-- An inbound telethon event as far as the registered handlers see it. -/
inductive TEvent where
  | new_message (sender_id : Nat) (sender_is_user : Bool) (text : String)
      (media : Option Media)
  | callback_query (sender_id : Nat) (data : String)

/-- Event routing: telethon runs every registered handler whose filter
matches, in registration order. For messages the filters are the
patterns /start and /help and the media-is-not-None predicate
(main.py lines 144, 151, 171); for callback queries the two anchored
patterns of lines 230 and 262, which never both match. -/
def dispatch (ADMIN_IDS : List Nat) (cooldown_minutes : Int) (relay_ok : Bool)
    (admin_reachable : Nat → Bool) (now : Int) (st : BotState) (ev : TEvent) :
    BotState × List Response :=
  match ev with
  | TEvent.new_message sender_id sender_is_user text media =>
    let r1 :=
      if text_matches "/start" text then start_handler st
      else (st, ([] : List Response))
    let r2 :=
      if text_matches "/help" text then
        let h := help_handler ADMIN_IDS r1.1 sender_id
        (h.1, r1.2 ++ h.2)
      else r1
    match media with
    | none => r2
    | some m =>
      let h := media_handler ADMIN_IDS cooldown_minutes admin_reachable r2.1
        sender_id sender_is_user { media := some m } now
      (h.1, r2.2 ++ h.2)
  | TEvent.callback_query sender_id data =>
    match parse_callback_data "approve_" data with
    | some post_id => approve_callback ADMIN_IDS relay_ok st sender_id post_id
    | none =>
      match parse_callback_data "reject_" data with
      | some post_id => reject_callback ADMIN_IDS st sender_id post_id
      | none => (st, [])

/-- Shared concrete fixtures for witnesses and counterexamples. -/
def ex_message : Message := { media := some Media.photo }

def ex_post : Submission := { user_id := 5, message := ex_message, timestamp := 0 }

def ex_state : BotState :=
  { pending_posts := [(0, ex_post)], user_entities := [], user_cooldowns := [] }

/-- A state whose only content is a cooldown entry of 59 seconds for user 5. -/
def ex_cooldown_state : BotState :=
  { pending_posts := [], user_entities := [], user_cooldowns := [(5, 59)] }

/-- The interleaving insert, insert, remove 0, insert. -/
def ex_ops : List RegOp :=
  [RegOp.ins ex_post, RegOp.ins ex_post, RegOp.rem 0, RegOp.ins ex_post]

/-- Reading a key right after writing it yields the written value. -/
theorem dget_dset_self {α : Type} (d : PyDict α) (k : Nat) (v : α) :
    dget (dset d k v) k = some v := by
  induction d with
  | nil => simp [dset, dget]
  | cons p rest ih =>
    obtain ⟨kk, w⟩ := p
    by_cases h : kk = k
    · subst h; simp [dset, dget]
    · simp [dset, dget, h, ih]

/-- Reading a key right after deleting it finds nothing. -/
theorem dget_ddel_self {α : Type} (d : PyDict α) (k : Nat) :
    dget (ddel d k) k = none := by
  induction d with
  | nil => simp [ddel, dget]
  | cons p rest ih =>
    obtain ⟨kk, w⟩ := p
    by_cases h : kk = k
    · subst h; simpa [ddel] using ih
    · simp [ddel, dget, h, ih]

/-- A key reads as none exactly when it is absent from the key list. -/
theorem dget_eq_none_iff {α : Type} (d : PyDict α) (k : Nat) :
    dget d k = none ↔ k ∉ d.map Prod.fst := by
  induction d with
  | nil => simp [dget]
  | cons p rest ih =>
    obtain ⟨kk, w⟩ := p
    by_cases h : kk = k
    · subst h; simp [dget]
    · simp [dget, h, ih, Ne.symm h]

/-- Writing an absent key appends the pair at the end. -/
theorem dset_eq_append {α : Type} (d : PyDict α) (k : Nat) (v : α)
    (h : dget d k = none) : dset d k v = d ++ [(k, v)] := by
  induction d with
  | nil => simp [dset]
  | cons p rest ih =>
    obtain ⟨kk, w⟩ := p
    by_cases hk : kk = k
    · subst hk; simp [dget] at h
    · simp [dget, hk] at h
      simp [dset, hk, ih h]

/-- On a registry whose keys are exactly 0..len-1, an insert appends
under the fresh key len. -/
theorem insert_post_snd (d : PyDict Submission) (s : Submission)
    (h : d.map Prod.fst = List.range d.length) :
    (insert_post d s).2 = d ++ [(d.length, s)] := by
  have hnone : dget d d.length = none := by
    rw [dget_eq_none_iff, h]
    simp
  exact dset_eq_append d d.length s hnone

/-- Consecutive inserts with no intervening removal assign the ids
len, len+1, ... in order. -/
theorem insert_all_ids (ss : List Submission) :
    ∀ d : PyDict Submission, d.map Prod.fst = List.range d.length →
      (insert_all d ss).2 = List.range' d.length ss.length := by
  induction ss with
  | nil => intro d _; rfl
  | cons s rest ih =>
    intro d h
    have h2 := insert_post_snd d s h
    have hkeys : (insert_post d s).2.map Prod.fst = List.range (insert_post d s).2.length := by
      rw [h2]
      simp [h, List.range_succ]
    have hlen : (insert_post d s).2.length = d.length + 1 := by
      rw [h2]; simp
    have ih2 := ih (insert_post d s).2 hkeys
    rw [hlen] at ih2
    simp only [insert_all, ih2]
    rfl

/-- When the gate blocks, the remaining duration is strictly positive. -/
theorem can_user_post_blocked_pos (c : PyDict Int) (u : Nat) (now r : Int)
    (h : can_user_post c u now = (false, some r)) : 0 < r := by
  unfold can_user_post at h
  split at h
  · simp at h
  · split at h
    · simp at h
    · simp only [Prod.mk.injEq, Option.some.injEq] at h
      omega

/-- The pattern of start_handler never matches an approve command text. -/
theorem start_not_match_approve (s : String) :
    text_matches "/start" ("/approve " ++ s) = false := by
  show list_starts "/start".data ("/approve " ++ s).data = false
  rw [String.data_append]
  rfl

/-- The pattern of help_handler never matches an approve command text. -/
theorem help_not_match_approve (s : String) :
    text_matches "/help" ("/approve " ++ s) = false := by
  show list_starts "/help".data ("/approve " ++ s).data = false
  rw [String.data_append]
  rfl

/-- The pattern of start_handler never matches a reject command text. -/
theorem start_not_match_reject (s : String) :
    text_matches "/start" ("/reject " ++ s) = false := by
  show list_starts "/start".data ("/reject " ++ s).data = false
  rw [String.data_append]
  rfl

/-- The pattern of help_handler never matches a reject command text. -/
theorem help_not_match_reject (s : String) :
    text_matches "/help" ("/reject " ++ s) = false := by
  show list_starts "/help".data ("/reject " ++ s).data = false
  rw [String.data_append]
  rfl

/-- Claim C1, counterexample: from an empty registry, the operation
sequence insert, insert, remove 0, insert assigns the ids 0, 1, 1 —
three inserts with an intervening remove do not yield distinct,
strictly increasing ids, and the third insert reuses id 1, overwriting
the still-pending post 1 and leaving a single entry in the registry. -/
theorem C1_counterexample :
    (run_reg_ops [] ex_ops).2 = [0, 1, 1] ∧
    ¬ (run_reg_ops [] ex_ops).2.Nodup ∧
    (run_reg_ops [] ex_ops).1.length = 1 := by
  refine ⟨rfl, ?_, by decide⟩
  rw [(rfl : (run_reg_ops [] ex_ops).2 = [0, 1, 1])]
  decide

/-- Claim C1 as amended: insert assigns the id len(pending_posts), so N
calls to insert with no intervening remove, starting from an empty
registry, yield the distinct strictly increasing ids 0, ..., N-1; after
a removal the length shrinks, so an id can be assigned again. -/
theorem C1_amended_insert_ids :
    (∀ (d : PyDict Submission) (s : Submission), (insert_post d s).1 = d.length) ∧
    (∀ ss : List Submission, (insert_all [] ss).2 = List.range ss.length) := by
  constructor
  · intro d s; rfl
  · intro ss
    have h := insert_all_ids ss [] (by simp)
    simpa [List.range_eq_range'] using h

/-- Claim C2, counterexample: with post 0 pending and the relay failing,
an admin approve of 0 leaves the state unchanged — post 0 is still
pending, so the submission was not removed before the relay attempt. -/
theorem C2_counterexample :
    (approve_callback [7] false ex_state 7 0).1 = ex_state ∧
    dget (approve_callback [7] false ex_state 7 0).1.pending_posts 0 = some ex_post := by
  exact ⟨rfl, rfl⟩

/-- Claim C2 as amended: in the Approve transition the submission is
removed from the registry only after a successful relay; if the relay
fails the admin is told so and the submission remains pending
(nothing is lost). -/
theorem C2_remove_after_relay (ADMIN_IDS : List Nat) (st : BotState)
    (sender_id post_id : Nat) (post : Submission)
    (hadmin : ADMIN_IDS.contains sender_id = true)
    (hpost : dget st.pending_posts post_id = some post) :
    (approve_callback ADMIN_IDS false st sender_id post_id).1 = st ∧
    (approve_callback ADMIN_IDS false st sender_id post_id).2 =
      [Response.answer "❌ Failed to send to target channel!" true] ∧
    (approve_callback ADMIN_IDS true st sender_id post_id).1.pending_posts =
      ddel st.pending_posts post_id := by
  have hmem : sender_id ∈ ADMIN_IDS := by simpa using hadmin
  refine ⟨?_, ?_, ?_⟩ <;> simp [approve_callback, hmem, hpost]

/-- Claim C2 witness: the amended theorem at the concrete state with
post 0 pending and admin 7 approving it. -/
theorem C2_remove_after_relay_witness :
    (approve_callback [7] false ex_state 7 0).1 = ex_state ∧
    (approve_callback [7] false ex_state 7 0).2 =
      [Response.answer "❌ Failed to send to target channel!" true] ∧
    (approve_callback [7] true ex_state 7 0).1.pending_posts =
      ddel ex_state.pending_posts 0 :=
  C2_remove_after_relay [7] ex_state 7 0 ex_post rfl rfl

/-- Claim C3, counterexample: with post 0 pending, the admin text
command approve 0 leaves the state untouched and sends nothing, while
the approve_0 button callback removes post 0 — the two entry points do
not have identical semantics. -/
theorem C3_counterexample :
    dispatch [7] 30 true (fun _ => true) 0 ex_state
        (TEvent.new_message 7 true "/approve 0" none) = (ex_state, []) ∧
    (dispatch [7] 30 true (fun _ => true) 0 ex_state
        (TEvent.callback_query 7 "approve_0")).1.pending_posts = [] := by
  exact ⟨rfl, rfl⟩

/-- Claim C3 as amended: approve and reject appear in the registered
bot command menu, but no message handler is attached to them — a
textual approve or reject command (a message with no media) from any
sender produces no state change and no response whatsoever; only the
approve_<id> and reject_<id> button callbacks implement the
Approve/Reject logic. -/
theorem C3_amended_commands_do_nothing (ADMIN_IDS : List Nat)
    (cooldown_minutes : Int) (relay_ok : Bool) (admin_reachable : Nat → Bool)
    (now : Int) (st : BotState) (sender_id : Nat) (arg : String) :
    dispatch ADMIN_IDS cooldown_minutes relay_ok admin_reachable now st
        (TEvent.new_message sender_id true ("/approve " ++ arg) none) = (st, []) ∧
    dispatch ADMIN_IDS cooldown_minutes relay_ok admin_reachable now st
        (TEvent.new_message sender_id true ("/reject " ++ arg) none) = (st, []) ∧
    ("approve", "Approve a post (admin only)") ∈ setup_commands_list ∧
    ("reject", "Reject a post (admin only)") ∈ setup_commands_list := by
  refine ⟨?_, ?_, by simp [setup_commands_list], by simp [setup_commands_list]⟩
  · simp [dispatch, start_not_match_approve, help_not_match_approve]
  · simp [dispatch, start_not_match_reject, help_not_match_reject]

/-- Claim C4: registry removal resolves a post at most once — when id
is present, the first remove returns its record and deletes it, and a
second remove of the same id (no intervening insert) observes
not-found, never returning the record again. -/
theorem C4_remove_at_most_once (d : PyDict Submission) (post_id : Nat)
    (s : Submission) (h : dget d post_id = some s) :
    remove_post d post_id = (some s, ddel d post_id) ∧
    remove_post (remove_post d post_id).2 post_id = (none, ddel d post_id) := by
  have h1 : remove_post d post_id = (some s, ddel d post_id) := by
    unfold remove_post
    rw [h]
  refine ⟨h1, ?_⟩
  rw [h1]
  unfold remove_post
  rw [dget_ddel_self]

/-- Claim C4 witness: the removal theorem on the one-entry registry
holding post 0. -/
theorem C4_remove_at_most_once_witness :
    remove_post [(0, ex_post)] 0 = (some ex_post, ddel [(0, ex_post)] 0) ∧
    remove_post (remove_post [(0, ex_post)] 0).2 0 = (none, ddel [(0, ex_post)] 0) :=
  C4_remove_at_most_once [(0, ex_post)] 0 ex_post rfl

/-- Claim C5: the cooldown check returns allowed with no remaining time
when the user has no recorded entry or the recorded time has passed,
and otherwise blocks with remaining = recorded time minus now; in
particular a user never recorded is always allowed. -/
theorem C5_can_submit_contract (user_cooldowns : PyDict Int) (user_id : Nat)
    (now : Int) :
    (dget user_cooldowns user_id = none →
      can_user_post user_cooldowns user_id now = (true, none)) ∧
    ∀ cooldown_end, dget user_cooldowns user_id = some cooldown_end →
      (cooldown_end ≤ now →
        can_user_post user_cooldowns user_id now = (true, none)) ∧
      (now < cooldown_end →
        can_user_post user_cooldowns user_id now
          = (false, some (cooldown_end - now))) := by
  constructor
  · intro h
    unfold can_user_post
    rw [h]
  · intro e he
    constructor
    · intro hle
      unfold can_user_post
      rw [he]
      simp only [ge_iff_le, if_pos hle]
    · intro hlt
      unfold can_user_post
      rw [he]
      simp only [ge_iff_le, if_neg (not_le.mpr hlt)]

/-- Claim C6: recording a submission at time t with cooldown m minutes
unconditionally sets the entry of the user to t + m*60 seconds,
overwriting any prior value; one second before the entry the check
blocks with one second remaining, and at the entry time it allows. -/
theorem C6_cooldown_boundary (user_cooldowns : PyDict Int) (user_id : Nat)
    (t m : Int) :
    dget (set_user_cooldown user_cooldowns user_id t m) user_id
      = some (t + m * 60) ∧
    can_user_post (set_user_cooldown user_cooldowns user_id t m) user_id
      (t + m * 60 - 1) = (false, some 1) ∧
    can_user_post (set_user_cooldown user_cooldowns user_id t m) user_id
      (t + m * 60) = (true, none) := by
  have hget : dget (set_user_cooldown user_cooldowns user_id t m) user_id
      = some (t + m * 60) := dget_dset_self user_cooldowns user_id (t + m * 60)
  refine ⟨hget, ?_, ?_⟩
  · unfold can_user_post
    rw [hget]
    have h1 : t + m * 60 - (t + m * 60 - 1) = 1 := by omega
    simp only [ge_iff_le, h1,
      if_neg (show ¬ t + m * 60 ≤ t + m * 60 - 1 by omega)]
  · unfold can_user_post
    rw [hget]
    simp only [ge_iff_le, if_pos (le_refl (t + m * 60))]

/-- Claim C7: the image validator accepts exactly a native photo or a
document whose declared MIME type belongs to the fixed allowlist; a
message with no media, or with media outside these cases, is rejected. -/
theorem C7_image_allowlist (message : Message) :
    is_image_file message = true ↔
      message.media = some Media.photo ∨
      ∃ mime_type, message.media = some (Media.document mime_type) ∧
        mime_type ∈ ALLOWED_MIME_TYPES := by
  obtain ⟨media⟩ := message
  cases media with
  | none => simp [is_image_file]
  | some m =>
    cases m with
    | photo => simp [is_image_file]
    | document mt => simp [is_image_file]
    | other_media => simp [is_image_file]

/-- Claim C8, counterexample: with only post 0 pending, an admin
approve of the absent id 5 answers the fixed text "Invalid post ID!",
which contains no digit at all — it does not enumerate the pending
ids — while the state is unchanged. -/
theorem C8_counterexample :
    (approve_callback [7] true ex_state 7 5).2
      = [Response.answer "❌ Invalid post ID!" true] ∧
    (approve_callback [7] true ex_state 7 5).1 = ex_state ∧
    ex_state.pending_posts.map Prod.fst = [0] ∧
    ("❌ Invalid post ID!".data.all fun c => !c.isDigit) = true := by
  exact ⟨rfl, rfl, rfl, by decide⟩

/-- Claim C8 as amended: an admin approve or reject of an id not in the
registry answers the fixed alert "Invalid post ID!" (which does not
enumerate the pending ids) and changes no state — registry, cooldowns
and entity cache are exactly as before. -/
theorem C8_amended_invalid_id (ADMIN_IDS : List Nat) (relay_ok : Bool)
    (st : BotState) (sender_id post_id : Nat)
    (hadmin : ADMIN_IDS.contains sender_id = true)
    (hmiss : dget st.pending_posts post_id = none) :
    approve_callback ADMIN_IDS relay_ok st sender_id post_id
      = (st, [Response.answer "❌ Invalid post ID!" true]) ∧
    reject_callback ADMIN_IDS st sender_id post_id
      = (st, [Response.answer "❌ Invalid post ID!" true]) := by
  have hmem : sender_id ∈ ADMIN_IDS := by simpa using hadmin
  constructor
  · simp [approve_callback, hmem, hmiss]
  · simp [reject_callback, remove_post, hmem, hmiss]

/-- Claim C8 witness: the amended theorem at the concrete state holding
only post 0, with admin 7 resolving the absent id 5. -/
theorem C8_amended_invalid_id_witness :
    approve_callback [7] true ex_state 7 5
      = (ex_state, [Response.answer "❌ Invalid post ID!" true]) ∧
    reject_callback [7] ex_state 7 5
      = (ex_state, [Response.answer "❌ Invalid post ID!" true]) :=
  C8_amended_invalid_id [7] true ex_state 7 5 rfl rfl

/-- Claim C9, counterexample: a media message whose sender is not a
User (for instance a channel) is dropped by the media handler with no
response at all — a handler invocation that rejects the submission yet
sends nothing to the triggering actor. -/
theorem C9_counterexample :
    media_handler [7] 30 (fun _ => true) ex_state 5 false ex_message 0
      = (ex_state, []) := rfl

/-- Claim C9 as amended: every handler invocation other than the
silent non-User-sender drop of the media handler produces at least one
response to the triggering actor, in every branch, success or failure. -/
theorem C9_amended_responses (ADMIN_IDS : List Nat) (cooldown_minutes : Int)
    (admin_reachable : Nat → Bool) (relay_ok : Bool) (st : BotState)
    (sender_id post_id : Nat) (message : Message) (now : Int) :
    (media_handler ADMIN_IDS cooldown_minutes admin_reachable st sender_id
      true message now).2 ≠ [] ∧
    (approve_callback ADMIN_IDS relay_ok st sender_id post_id).2 ≠ [] ∧
    (reject_callback ADMIN_IDS st sender_id post_id).2 ≠ [] ∧
    (start_handler st).2 ≠ [] ∧
    (help_handler ADMIN_IDS st sender_id).2 ≠ [] := by
  refine ⟨?_, ?_, ?_, ?_, ?_⟩
  · cases him : is_image_file message
    · simp [media_handler, him]
    · cases hc : can_user_post st.user_cooldowns sender_id now with
      | mk allowed rem =>
        cases allowed
        · simp [media_handler, him, hc]
        · simp [media_handler, him, hc]
  · by_cases hA : sender_id ∈ ADMIN_IDS
    · cases hd : dget st.pending_posts post_id
      · simp [approve_callback, hA, hd]
      · cases relay_ok <;> simp [approve_callback, hA, hd]
    · simp [approve_callback, hA]
  · by_cases hA : sender_id ∈ ADMIN_IDS
    · cases hd : dget st.pending_posts post_id
      · simp [reject_callback, remove_post, hA, hd]
      · simp [reject_callback, remove_post, hA, hd]
    · simp [reject_callback, hA]
  · simp [start_handler]
  · by_cases hA : sender_id ∈ ADMIN_IDS <;> simp [help_handler, hA]

/-- Claim C10: when the cooldown gate blocks with remaining r seconds,
the user is told to wait shown_minutes r minutes, and for the positive
remainders the gate produces this is the whole number of minutes
rounded down — in particular any remainder below 60 seconds is shown
as 0 minutes. -/
theorem C10_minutes_rounded_down (ADMIN_IDS : List Nat)
    (cooldown_minutes : Int) (admin_reachable : Nat → Bool) (st : BotState)
    (sender_id : Nat) (message : Message) (now r : Int)
    (himg : is_image_file message = true)
    (hcool : can_user_post st.user_cooldowns sender_id now = (false, some r)) :
    (media_handler ADMIN_IDS cooldown_minutes admin_reachable st sender_id
        true message now).2 =
      [Response.respond ("⏳ Please wait " ++ toString (shown_minutes r)
        ++ " minutes before submitting another post.")] ∧
    shown_minutes r = Int.fdiv r 60 ∧
    (r < 60 → shown_minutes r = 0) := by
  have hr : 0 < r := can_user_post_blocked_pos st.user_cooldowns sender_id now r hcool
  refine ⟨?_, ?_, ?_⟩
  · simp [media_handler, himg, hcool]
  · unfold shown_minutes
    rw [Int.tdiv_eq_ediv hr.le (by norm_num : (0 : Int) ≤ 60),
      Int.fdiv_eq_ediv r (by norm_num : (0 : Int) ≤ 60)]
  · intro h60
    unfold shown_minutes
    rw [Int.tdiv_eq_ediv hr.le (by norm_num : (0 : Int) ≤ 60)]
    exact Int.ediv_eq_zero_of_lt hr.le h60

/-- Claim C10 witness: user 5 has a cooldown entry 59 seconds away; at
time 0 the submission is blocked and the message shows 0 minutes. -/
theorem C10_minutes_rounded_down_witness :
    (media_handler [7] 30 (fun _ => true) ex_cooldown_state 5
        true ex_message 0).2 =
      [Response.respond ("⏳ Please wait " ++ toString (shown_minutes 59)
        ++ " minutes before submitting another post.")] ∧
    shown_minutes 59 = Int.fdiv 59 60 ∧
    ((59 : Int) < 60 → shown_minutes 59 = 0) :=
  C10_minutes_rounded_down [7] 30 (fun _ => true) ex_cooldown_state 5
    ex_message 0 59 rfl (by decide)
